import Mathlib

/-!
# Verification of the medical risk calculator

Shallow embedding of the computational core of the browser risk-score tool
(`public/script.js` and its companion file): the age calculator
`calculateAge`, the risk scorer `calculateRisk`, the classifier
`getRiskInterpretation`, and the validator `validateForm`.

Modelling conventions:
* JavaScript numbers are modelled as exact rationals (`ℚ`); the decimal
  literals `0.3`, `0.2` of the source are the exact rationals `3/10`, `2/10`.
* `Math.round` rounds half toward positive infinity, i.e. `⌊x + 1/2⌋`
  (ECMAScript semantics); this is `jsRound` below.
* Raw form fields are `Option` values: `none` stands for a missing/empty
  (falsy) field.  The result of `parseFloat` on a non-empty haemoglobin
  field is modelled by `RawNum`: either a rational, or `nan` for text that
  does not parse; in JavaScript every comparison with `NaN` is false, which
  is reflected in the `nan` branch of the validator.
* The implicit "current date" of `calculateAge` and `validateForm` is made
  an explicit `today` parameter.
-/

namespace VLModel

/-- A calendar date: year, month and day, as in the triple a JavaScript
`Date` exposes through `getFullYear`/`getMonth`/`getDate` (whether months
count from 0 or from 1 is irrelevant: only differences and comparisons of
months appear). -/
structure Date where
  year : Int
  month : Int
  day : Int
deriving DecidableEq, Repr

/-- `calculateAge(birthDate)` of the source, with the implicit `today`
made explicit: year difference, decremented when the month difference is
negative, or zero with today's day before the birth day. -/
def calculateAge (birth today : Date) : Int :=
  let age := today.year - birth.year
  let monthDiff := today.month - birth.month
  if monthDiff < 0 ∨ (monthDiff = 0 ∧ today.day < birth.day) then age - 1
  else age

/-- The parasite-count field of the patient data passed to
`calculateRisk`: either the string sentinel `"not-available"`, or a value
whose `parseInt` is the non-negative integer `n`. -/
inductive ParasiteField where
  | notAvailable
  | count (n : Nat)
deriving DecidableEq, Repr

/-- The `data` object handed to `calculateRisk` after validation. -/
structure PatientData where
  age : ℚ
  anaemia : String
  haemoglobin : ℚ
  parasiteCount : ParasiteField

/-- `Math.round`: round half toward positive infinity. -/
def jsRound (x : ℚ) : Int := ⌊x + 1/2⌋

/-- `calculateRisk(data)` of the source, line by line: sequential
accumulation into `risk`, clamping with `Math.min(100, Math.max(0, risk))`,
then `Math.round(risk * 10) / 10`. -/
def calculateRisk (data : PatientData) : ℚ :=
  let risk : ℚ := 0
  let risk : ℚ :=
    if data.age < 5 then risk + 20
    else if data.age > 65 then risk + 15
    else risk + data.age * 0.3
  let risk : ℚ := if data.anaemia = "yes" then risk + 25 else risk
  let hbFactor : ℚ := max 0 ((150 - data.haemoglobin) * 0.2)
  let risk : ℚ := risk + hbFactor
  let risk : ℚ :=
    match data.parasiteCount with
    | ParasiteField.notAvailable => risk
    | ParasiteField.count n => risk + (n : ℚ) * 5
  let risk : ℚ := min 100 (max 0 risk)
  (jsRound (risk * 10) : ℚ) / 10

/-- The record `getRiskInterpretation` returns: a text and a CSS class
(the source field `class` is a Lean keyword, hence `cls`). -/
structure RiskInterpretation where
  text : String
  cls : String
deriving DecidableEq, Repr

/-- `getRiskInterpretation(riskValue)` of the source. -/
def getRiskInterpretation (riskValue : ℚ) : RiskInterpretation :=
  if riskValue < 20 then
    { text := "Low risk - Standard monitoring recommended", cls := "low-risk" }
  else if riskValue < 50 then
    { text := "Moderate risk - Enhanced monitoring advised", cls := "medium-risk" }
  else
    { text := "High risk - Immediate clinical attention required", cls := "high-risk" }

/-- The value of a non-empty-or-empty numeric form field as seen through
`parseFloat`: `missing` is a falsy field, `nan s` a non-empty text `s`
whose parse is `NaN`, `num q` a field parsing to the number `q`. -/
inductive RawNum where
  | missing
  | nan (s : String)
  | num (q : ℚ)
deriving DecidableEq, Repr

/-- JavaScript falsiness of a form value that is either absent (`null`)
or a string: `null` and the empty string are falsy. -/
def falsyStr : Option String → Bool
  | none => true
  | some s => s == ""

/-- The raw form data handed to `validateForm`: the date-of-birth field
(already as a calendar date, `none` when empty), the anaemia and
parasite-count selections as raw optional strings, and the haemoglobin
field through the lens of `parseFloat`. -/
structure RawForm where
  dob : Option Date
  anaemia : Option String
  haemoglobin : RawNum
  parasiteCount : Option String

/-- `validateForm(formData)` of the source, with the implicit current
date made the explicit `today`: errors are pushed in source order
(date of birth, anaemia, haemoglobin, parasite count).  In the `nan`
branch both comparisons `hb < 20` and `hb > 180` are false in JavaScript,
so no error is pushed. -/
def validateForm (today : Date) (f : RawForm) : List String :=
  let errors : List String := []
  let errors : List String :=
    match f.dob with
    | none => errors ++ ["Date of birth is required"]
    | some d =>
      let age := calculateAge d today
      let errors :=
        if age < 0 then errors ++ ["Date of birth cannot be in the future"]
        else errors
      if age > 120 then
        errors ++ ["Please check the date of birth - age seems unrealistic"]
      else errors
  let errors : List String :=
    if falsyStr f.anaemia then errors ++ ["Please select anaemia status"]
    else errors
  let errors : List String :=
    match f.haemoglobin with
    | RawNum.missing => errors ++ ["Haemoglobin level is required"]
    | RawNum.nan _ => errors
    | RawNum.num hb =>
      if hb < 20 ∨ hb > 180 then
        errors ++ ["Haemoglobin must be between 20-180 g/L"]
      else errors
  if falsyStr f.parasiteCount then errors ++ ["Please select parasite count"]
  else errors

/-! ## Spec-side definitions

The spec describes the score as a sum of four independent contributions,
clamped and rounded; `specRisk` is that description, to be compared with
the accumulating `calculateRisk` of the source. -/

/-- Age contribution per the spec: 20 if age < 5, else 15 if age > 65,
else `age * 0.3`. -/
def agePart (age : ℚ) : ℚ :=
  if age < 5 then 20 else if age > 65 then 15 else age * 0.3

/-- Anaemia contribution per the spec: 25 if yes, else 0. -/
def anaemiaPart (anaemia : String) : ℚ :=
  if anaemia = "yes" then 25 else 0

/-- Haemoglobin contribution per the spec: `max 0 ((150 - hb) * 0.2)`. -/
def haemoglobinPart (hb : ℚ) : ℚ :=
  max 0 ((150 - hb) * 0.2)

/-- Parasite contribution per the spec: `parasiteCount * 5` for a concrete
count, 0 for the "not available" sentinel. -/
def parasitePart : ParasiteField → ℚ
  | ParasiteField.notAvailable => 0
  | ParasiteField.count n => (n : ℚ) * 5

/-- Clamp into the closed interval [0, 100]. -/
def clampScore (x : ℚ) : ℚ := min 100 (max 0 x)

/-- Round to one decimal place the way the source does:
`Math.round(x * 10) / 10`. -/
def roundTo1 (x : ℚ) : ℚ := (jsRound (x * 10) : ℚ) / 10

/-- The spec's description of the risk score: round-to-one-decimal of the
clamp of the sum of the four contributions. -/
def specRisk (age : ℚ) (anaemia : String) (hb : ℚ) (p : ParasiteField) : ℚ :=
  roundTo1 (clampScore (agePart age + anaemiaPart anaemia + haemoglobinPart hb + parasitePart p))

/-- The record returned for scores below 20. -/
def lowInterpretation : RiskInterpretation :=
  { text := "Low risk - Standard monitoring recommended", cls := "low-risk" }

/-- The record returned for scores in [20, 50). -/
def moderateInterpretation : RiskInterpretation :=
  { text := "Moderate risk - Enhanced monitoring advised", cls := "medium-risk" }

/-- The record returned for scores of 50 and above. -/
def highInterpretation : RiskInterpretation :=
  { text := "High risk - Immediate clinical attention required", cls := "high-risk" }

/-- The errors the validator produces for the date-of-birth field alone,
in source order. -/
def dobErrors (today : Date) : Option Date → List String
  | none => ["Date of birth is required"]
  | some d =>
    (if calculateAge d today < 0 then ["Date of birth cannot be in the future"] else [])
      ++ (if calculateAge d today > 120 then
            ["Please check the date of birth - age seems unrealistic"]
          else [])

/-- The errors the validator produces for the anaemia field alone. -/
def anaemiaErrors (a : Option String) : List String :=
  if falsyStr a then ["Please select anaemia status"] else []

/-- The errors the validator produces for the haemoglobin field alone. -/
def haemoglobinErrors : RawNum → List String
  | RawNum.missing => ["Haemoglobin level is required"]
  | RawNum.nan _ => []
  | RawNum.num hb =>
    if hb < 20 ∨ hb > 180 then ["Haemoglobin must be between 20-180 g/L"] else []

/-- The errors the validator produces for the parasite-count field alone. -/
def parasiteErrors (p : Option String) : List String :=
  if falsyStr p then ["Please select parasite count"] else []

/-! ## Helper lemmas -/

/-- The accumulating source loop equals the spec's sum-of-contributions
form, unconditionally. -/
theorem calculateRisk_eq (d : PatientData) :
    calculateRisk d = specRisk d.age d.anaemia d.haemoglobin d.parasiteCount := by
  simp only [calculateRisk, specRisk, agePart, anaemiaPart, haemoglobinPart, parasitePart,
    clampScore, roundTo1]
  cases d.parasiteCount <;> split_ifs <;> ring_nf

/-- The clamped value lies in [0, 100]. -/
theorem clampScore_bounds (x : ℚ) : 0 ≤ clampScore x ∧ clampScore x ≤ 100 :=
  ⟨le_min (by norm_num) (le_max_left 0 x), min_le_left _ _⟩

/-- Clamping is monotone. -/
theorem clampScore_mono {x y : ℚ} (h : x ≤ y) : clampScore x ≤ clampScore y :=
  min_le_min le_rfl (max_le_max le_rfl h)

/-- Rounding to one decimal is monotone. -/
theorem roundTo1_mono {x y : ℚ} (h : x ≤ y) : roundTo1 x ≤ roundTo1 y := by
  unfold roundTo1 jsRound
  have hf : ⌊x * 10 + 1/2⌋ ≤ ⌊y * 10 + 1/2⌋ := Int.floor_mono (by linarith)
  have hq : ((⌊x * 10 + 1/2⌋ : ℤ) : ℚ) ≤ ((⌊y * 10 + 1/2⌋ : ℤ) : ℚ) := by exact_mod_cast hf
  exact div_le_div_of_nonneg_right hq (by norm_num)

/-- Rounding to one decimal maps [0, 100] into [0, 100]. -/
theorem roundTo1_bounds {x : ℚ} (h0 : 0 ≤ x) (h100 : x ≤ 100) :
    0 ≤ roundTo1 x ∧ roundTo1 x ≤ 100 := by
  unfold roundTo1 jsRound
  have hfl : (0 : ℤ) ≤ ⌊x * 10 + 1/2⌋ := Int.floor_nonneg.mpr (by linarith)
  have hfl' : (0 : ℚ) ≤ ((⌊x * 10 + 1/2⌋ : ℤ) : ℚ) := by exact_mod_cast hfl
  have hub : (⌊x * 10 + 1/2⌋ : ℤ) ≤ 1000 := by
    have h1 : ((⌊x * 10 + 1/2⌋ : ℤ) : ℚ) ≤ x * 10 + 1/2 := Int.floor_le _
    have h2 : ((⌊x * 10 + 1/2⌋ : ℤ) : ℚ) < 1001 := by linarith
    have h3 : (⌊x * 10 + 1/2⌋ : ℤ) < 1001 := by exact_mod_cast h2
    omega
  have hub' : ((⌊x * 10 + 1/2⌋ : ℤ) : ℚ) ≤ 1000 := by exact_mod_cast hub
  constructor
  · positivity
  · rw [div_le_iff₀ (by norm_num : (0 : ℚ) < 10)]
    linarith

/-- The validator is the concatenation, in field order, of the per-field
error lists: every applicable error is collected, none short-circuits. -/
theorem validateForm_append (today : Date) (f : RawForm) :
    validateForm today f =
      dobErrors today f.dob ++ anaemiaErrors f.anaemia ++
        haemoglobinErrors f.haemoglobin ++ parasiteErrors f.parasiteCount := by
  rcases f with ⟨dob, an, hb, pc⟩
  by_cases ha : falsyStr an = true <;> by_cases hp : falsyStr pc = true <;>
    cases dob <;> cases hb <;>
      simp only [validateForm, dobErrors, anaemiaErrors, haemoglobinErrors, parasiteErrors,
        ha, hp, if_true, if_false] <;>
      first
        | (split_ifs <;> simp)
        | simp

/-- Any message in the date-of-birth error list is one of its three fixed
strings. -/
theorem mem_dobErrors (today : Date) (o : Option Date) (msg : String)
    (h : msg ∈ dobErrors today o) :
    msg = "Date of birth is required" ∨ msg = "Date of birth cannot be in the future" ∨
      msg = "Please check the date of birth - age seems unrealistic" := by
  cases o with
  | none => simp only [dobErrors] at h; simp at h; tauto
  | some d =>
    simp only [dobErrors] at h
    split_ifs at h <;> simp at h <;> tauto

/-- Any message in the anaemia error list is its one fixed string. -/
theorem mem_anaemiaErrors (a : Option String) (msg : String)
    (h : msg ∈ anaemiaErrors a) : msg = "Please select anaemia status" := by
  unfold anaemiaErrors at h
  split_ifs at h <;> simp at h
  exact h

/-- Any message in the parasite-count error list is its one fixed string. -/
theorem mem_parasiteErrors (p : Option String) (msg : String)
    (h : msg ∈ parasiteErrors p) : msg = "Please select parasite count" := by
  unfold parasiteErrors at h
  split_ifs at h <;> simp at h
  exact h

/-- The reference date's month/day falls before the birth date's
month/day: the "birthday not yet occurred this year" condition of the
spec. -/
def monthDayBefore (t b : Date) : Prop :=
  t.month < b.month ∨ (t.month = b.month ∧ t.day < b.day)

/-- Strict lexicographic order on dates: `t` is earlier than `b`, i.e.
`b` lies in the future as seen from `t`. -/
def dateEarlier (t b : Date) : Prop :=
  t.year < b.year ∨ (t.year = b.year ∧ monthDayBefore t b)

/-! ## Claim theorems -/

/-- C1: for every validated input (integer age in [0,120], anaemia in
{yes, no}, haemoglobin in [20,180], parasite count a concrete count or
the sentinel), `calculateRisk` returns round-to-one-decimal of the
clamp into [0,100] of the sum of the four contributions: the age part
(20 if age < 5, else 15 if age > 65, else age * 0.3, ages 5 and 65 taking
the linear branch), plus 25 for anaemia yes else 0, plus
max(0, (150 - haemoglobin) * 0.2), plus parasiteCount * 5 for a concrete
count and 0 for the sentinel. -/
theorem C1_risk_formula (d : PatientData)
    (hint : ∃ n : ℤ, d.age = (n : ℚ)) (h0 : 0 ≤ d.age) (h120 : d.age ≤ 120)
    (han : d.anaemia = "yes" ∨ d.anaemia = "no")
    (hhb1 : 20 ≤ d.haemoglobin) (hhb2 : d.haemoglobin ≤ 180) :
    calculateRisk d = specRisk d.age d.anaemia d.haemoglobin d.parasiteCount :=
  calculateRisk_eq d

/-- Witness for C1 at age 30, anaemia yes, haemoglobin 100, parasite
count 2. -/
theorem C1_witness :
    ((∃ n : ℤ, (30 : ℚ) = (n : ℚ)) ∧ (0 : ℚ) ≤ 30 ∧ (30 : ℚ) ≤ 120 ∧
      (("yes" : String) = "yes" ∨ ("yes" : String) = "no") ∧
      (20 : ℚ) ≤ 100 ∧ (100 : ℚ) ≤ 180) ∧
    calculateRisk ⟨30, "yes", 100, ParasiteField.count 2⟩ =
      specRisk 30 "yes" 100 (ParasiteField.count 2) :=
  ⟨⟨⟨30, by norm_num⟩, by norm_num, by norm_num, Or.inl rfl, by norm_num, by norm_num⟩,
    C1_risk_formula ⟨30, "yes", 100, ParasiteField.count 2⟩ ⟨30, by norm_num⟩ (by norm_num)
      (by norm_num) (Or.inl rfl) (by norm_num) (by norm_num)⟩

/-- C2: the classifier returns exactly one tier with its fixed label:
score < 20 gives the Low record, 20 ≤ score < 50 the Moderate record,
50 ≤ score the High record, and on [0,100] exactly one of the three
half-open ranges applies. -/
theorem C2_classifier (s : ℚ) :
    (s < 20 → getRiskInterpretation s = lowInterpretation) ∧
    (20 ≤ s → s < 50 → getRiskInterpretation s = moderateInterpretation) ∧
    (50 ≤ s → getRiskInterpretation s = highInterpretation) ∧
    (0 ≤ s → s ≤ 100 →
      (s < 20 ∧ ¬(20 ≤ s ∧ s < 50) ∧ ¬50 ≤ s) ∨
      (¬s < 20 ∧ (20 ≤ s ∧ s < 50) ∧ ¬50 ≤ s) ∨
      (¬s < 20 ∧ ¬(20 ≤ s ∧ s < 50) ∧ 50 ≤ s)) := by
  refine ⟨fun h => ?_, fun h1 h2 => ?_, fun h => ?_, fun h0 h100 => ?_⟩
  · simp only [getRiskInterpretation]
    rw [if_pos h]
    rfl
  · simp only [getRiskInterpretation]
    rw [if_neg (by linarith), if_pos h2]
    rfl
  · simp only [getRiskInterpretation]
    rw [if_neg (by linarith), if_neg (by linarith)]
    rfl
  · rcases lt_or_le s 20 with h | h
    · exact Or.inl ⟨h, fun hc => absurd h (not_lt.mpr hc.1), by linarith⟩
    · rcases lt_or_le s 50 with h5 | h5
      · exact Or.inr (Or.inl ⟨not_lt.mpr h, ⟨h, h5⟩, not_le.mpr h5⟩)
      · exact Or.inr (Or.inr ⟨not_lt.mpr (by linarith), fun hc => absurd h5 (not_le.mpr hc.2), h5⟩)

/-- Witness for C2 at score 10, which lies below 20 and is classified
Low. -/
theorem C2_witness :
    (10 : ℚ) < 20 ∧ getRiskInterpretation 10 = lowInterpretation :=
  ⟨by norm_num, (C2_classifier 10).1 (by norm_num)⟩

/-- C3: the validator returns all applicable error messages in fixed
field order (date of birth, anaemia, haemoglobin, parasite count) — the
per-field error lists concatenated — and on an input with valid date of
birth and parasite count but empty anaemia and haemoglobin it returns
exactly the anaemia error followed by the haemoglobin error. -/
theorem C3_validator_collects_all :
    (∀ (today : Date) (f : RawForm),
      validateForm today f =
        dobErrors today f.dob ++ anaemiaErrors f.anaemia ++
          haemoglobinErrors f.haemoglobin ++ parasiteErrors f.parasiteCount) ∧
    validateForm (Date.mk 2024 6 15)
      { dob := some (Date.mk 2000 1 1), anaemia := none, haemoglobin := RawNum.missing,
        parasiteCount := some "not-available" } =
      ["Please select anaemia status", "Haemoglobin level is required"] :=
  ⟨validateForm_append, by rfl⟩

/-- C4: `calculateAge` returns the year difference decremented by one
exactly when the reference date's month/day is before the birth date's
month/day; a birth date in the future gives a negative age; and a birth
date one day in the future makes the validator report exactly the one
"cannot be in the future" error. -/
theorem C4_age_calculation (b t : Date) :
    (calculateAge b t = t.year - b.year - 1 ↔ monthDayBefore t b) ∧
    (dateEarlier t b → calculateAge b t < 0) ∧
    validateForm (Date.mk 2024 6 15)
      { dob := some (Date.mk 2024 6 16), anaemia := some "yes",
        haemoglobin := RawNum.num 100, parasiteCount := some "2" } =
      ["Date of birth cannot be in the future"] := by
  refine ⟨?_, ?_, by rfl⟩
  · simp only [calculateAge, monthDayBefore]
    split_ifs with h <;> omega
  · intro he
    simp only [dateEarlier, monthDayBefore] at he
    simp only [calculateAge]
    split_ifs with h <;> omega

/-- Witness for C4: 2024-06-16 is one day after the reference date
2024-06-15, and the computed age is negative. -/
theorem C4_witness :
    dateEarlier (Date.mk 2024 6 15) (Date.mk 2024 6 16) ∧
    calculateAge (Date.mk 2024 6 16) (Date.mk 2024 6 15) < 0 :=
  ⟨Or.inr ⟨rfl, Or.inr ⟨rfl, by norm_num⟩⟩,
    (C4_age_calculation (Date.mk 2024 6 16) (Date.mk 2024 6 15)).2.1
      (Or.inr ⟨rfl, Or.inr ⟨rfl, by norm_num⟩⟩)⟩

/-- C5: on the validated domain the risk score is a (finite) rational in
the closed interval [0,100], because the total is clamped into [0,100]
before rounding. -/
theorem C5_score_bounded (d : PatientData)
    (h0 : 0 ≤ d.age) (h120 : d.age ≤ 120)
    (han : d.anaemia = "yes" ∨ d.anaemia = "no")
    (hhb1 : 20 ≤ d.haemoglobin) (hhb2 : d.haemoglobin ≤ 180) :
    0 ≤ calculateRisk d ∧ calculateRisk d ≤ 100 := by
  rw [calculateRisk_eq]
  unfold specRisk
  exact roundTo1_bounds (clampScore_bounds _).1 (clampScore_bounds _).2

/-- Witness for C5 at age 50, anaemia no, haemoglobin 130, parasite
count unavailable. -/
theorem C5_witness :
    ((0 : ℚ) ≤ 50 ∧ (50 : ℚ) ≤ 120 ∧ (("no" : String) = "yes" ∨ ("no" : String) = "no") ∧
      (20 : ℚ) ≤ 130 ∧ (130 : ℚ) ≤ 180) ∧
    0 ≤ calculateRisk ⟨50, "no", 130, ParasiteField.notAvailable⟩ ∧
    calculateRisk ⟨50, "no", 130, ParasiteField.notAvailable⟩ ≤ 100 :=
  ⟨⟨by norm_num, by norm_num, Or.inr rfl, by norm_num, by norm_num⟩,
    C5_score_bounded ⟨50, "no", 130, ParasiteField.notAvailable⟩ (by norm_num) (by norm_num)
      (Or.inr rfl) (by norm_num) (by norm_num)⟩

/-- C6: holding age, anaemia status and haemoglobin fixed, the risk
score is monotonically non-decreasing in the concrete parasite count. -/
theorem C6_parasite_monotone (age : ℚ) (anaemia : String) (hb : ℚ)
    (p1 p2 : ℕ) (h : p1 ≤ p2) :
    calculateRisk ⟨age, anaemia, hb, ParasiteField.count p1⟩ ≤
      calculateRisk ⟨age, anaemia, hb, ParasiteField.count p2⟩ := by
  rw [calculateRisk_eq, calculateRisk_eq]
  unfold specRisk
  apply roundTo1_mono
  apply clampScore_mono
  show agePart age + anaemiaPart anaemia + haemoglobinPart hb +
      parasitePart (ParasiteField.count p1) ≤
    agePart age + anaemiaPart anaemia + haemoglobinPart hb +
      parasitePart (ParasiteField.count p2)
  simp only [parasitePart]
  have hc : (p1 : ℚ) ≤ (p2 : ℚ) := by exact_mod_cast h
  linarith

/-- Witness for C6 with parasite counts 1 ≤ 2. -/
theorem C6_witness :
    1 ≤ 2 ∧
    calculateRisk ⟨30, "no", 100, ParasiteField.count 1⟩ ≤
      calculateRisk ⟨30, "no", 100, ParasiteField.count 2⟩ :=
  ⟨by norm_num, C6_parasite_monotone 30 "no" 100 1 2 (by norm_num)⟩

/-- C7: holding age, anaemia status and parasite count fixed, the risk
score is monotonically non-increasing in haemoglobin on the part of the
validated domain at or below 150. -/
theorem C7_haemoglobin_antitone (age : ℚ) (anaemia : String) (p : ParasiteField)
    (h1 h2 : ℚ) (hdom : 20 ≤ h1) (hle : h1 ≤ h2) (h150 : h2 ≤ 150) :
    calculateRisk ⟨age, anaemia, h2, p⟩ ≤ calculateRisk ⟨age, anaemia, h1, p⟩ := by
  rw [calculateRisk_eq, calculateRisk_eq]
  unfold specRisk
  apply roundTo1_mono
  apply clampScore_mono
  show agePart age + anaemiaPart anaemia + haemoglobinPart h2 + parasitePart p ≤
    agePart age + anaemiaPart anaemia + haemoglobinPart h1 + parasitePart p
  have hm : haemoglobinPart h2 ≤ haemoglobinPart h1 := by
    unfold haemoglobinPart
    apply max_le_max le_rfl
    nlinarith
  linarith

/-- Witness for C7 with haemoglobin 100 ≤ 140 ≤ 150. -/
theorem C7_witness :
    ((20 : ℚ) ≤ 100 ∧ (100 : ℚ) ≤ 140 ∧ (140 : ℚ) ≤ 150) ∧
    calculateRisk ⟨30, "no", 140, ParasiteField.notAvailable⟩ ≤
      calculateRisk ⟨30, "no", 100, ParasiteField.notAvailable⟩ :=
  ⟨⟨by norm_num, by norm_num, by norm_num⟩,
    C7_haemoglobin_antitone 30 "no" ParasiteField.notAvailable 100 140 (by norm_num)
      (by norm_num) (by norm_num)⟩

/-- C8: the three worked examples hold exactly: (70, no, 150,
not-available) scores 15.0 with tier Low; (3, yes, 100, 4) scores 75.0
with tier High; (40, no, 160, 0) scores 12.0 with tier Low. -/
theorem C8_worked_examples :
    calculateRisk ⟨70, "no", 150, ParasiteField.notAvailable⟩ = 15 ∧
    getRiskInterpretation (calculateRisk ⟨70, "no", 150, ParasiteField.notAvailable⟩) =
      lowInterpretation ∧
    calculateRisk ⟨3, "yes", 100, ParasiteField.count 4⟩ = 75 ∧
    getRiskInterpretation (calculateRisk ⟨3, "yes", 100, ParasiteField.count 4⟩) =
      highInterpretation ∧
    calculateRisk ⟨40, "no", 160, ParasiteField.count 0⟩ = 12 ∧
    getRiskInterpretation (calculateRisk ⟨40, "no", 160, ParasiteField.count 0⟩) =
      lowInterpretation := by
  have e1 : calculateRisk ⟨70, "no", 150, ParasiteField.notAvailable⟩ = 15 := by
    norm_num [calculateRisk, jsRound, if_neg (by decide : ¬ ("no" : String) = "yes")]
  have e2 : calculateRisk ⟨3, "yes", 100, ParasiteField.count 4⟩ = 75 := by
    norm_num [calculateRisk, jsRound]
  have e3 : calculateRisk ⟨40, "no", 160, ParasiteField.count 0⟩ = 12 := by
    norm_num [calculateRisk, jsRound, if_neg (by decide : ¬ ("no" : String) = "yes")]
  refine ⟨e1, ?_, e2, ?_, e3, ?_⟩
  · rw [e1]
    norm_num [getRiskInterpretation, lowInterpretation]
  · rw [e2]
    norm_num [getRiskInterpretation, highInterpretation]
  · rw [e3]
    norm_num [getRiskInterpretation, lowInterpretation]

/-- C9: a non-empty haemoglobin field whose numeric parse is NaN
produces no haemoglobin error (both range comparisons are false on NaN),
so such an input is accepted for scoring: with the other fields valid the
validator returns the empty list. -/
theorem C9_nan_accepted (today : Date) (f : RawForm) (s : String)
    (h : f.haemoglobin = RawNum.nan s) :
    ("Haemoglobin must be between 20-180 g/L" ∉ validateForm today f ∧
      "Haemoglobin level is required" ∉ validateForm today f) ∧
    validateForm (Date.mk 2024 6 15)
      { dob := some (Date.mk 2000 1 1), anaemia := some "no",
        haemoglobin := RawNum.nan "abc", parasiteCount := some "3" } = [] := by
  refine ⟨⟨?_, ?_⟩, by rfl⟩
  all_goals
    intro hmem
    rw [validateForm_append] at hmem
    simp only [List.mem_append] at hmem
    rcases hmem with ((hd | ha) | hh) | hp
    · rcases mem_dobErrors today f.dob _ hd with h1 | h1 | h1 <;> revert h1 <;> decide
    · exact absurd (mem_anaemiaErrors f.anaemia _ ha) (by decide)
    · rw [h] at hh
      simp [haemoglobinErrors] at hh
    · exact absurd (mem_parasiteErrors f.parasiteCount _ hp) (by decide)

/-- Witness for C9 at the concrete NaN form. -/
theorem C9_witness :
    ({ dob := some (Date.mk 2000 1 1), anaemia := some "no", haemoglobin := RawNum.nan "abc",
        parasiteCount := some "3" } : RawForm).haemoglobin = RawNum.nan "abc" ∧
    "Haemoglobin must be between 20-180 g/L" ∉
      validateForm (Date.mk 2024 6 15)
        { dob := some (Date.mk 2000 1 1), anaemia := some "no", haemoglobin := RawNum.nan "abc",
          parasiteCount := some "3" } :=
  ⟨rfl, (C9_nan_accepted (Date.mk 2024 6 15) _ "abc" rfl).1.1⟩

/-- C10: the one-decimal rounding step of `calculateRisk`, namely
`Math.round(score * 10) / 10` modelled by `jsRound`, sends every exact
half to the larger value (round half toward positive infinity); in
particular the clamped total 12.05 is reported as 12.1. -/
theorem C10_round_half_up (q : ℚ) (k : ℤ) (h : q * 10 = (k : ℚ) + 1/2) :
    (jsRound (q * 10) : ℚ) / 10 = ((k : ℚ) + 1) / 10 ∧
    calculateRisk ⟨40, "no", 149.75, ParasiteField.notAvailable⟩ = 12.1 := by
  constructor
  · rw [h]
    unfold jsRound
    have hk : ((k : ℚ) + 1/2 + 1/2) = ((k + 1 : ℤ) : ℚ) := by push_cast; ring
    rw [hk, Int.floor_intCast]
    push_cast
    ring
  · norm_num [calculateRisk, jsRound, if_neg (by decide : ¬ ("no" : String) = "yes")]

/-- Witness for C10 at the clamped total 12.05, whose tenfold 120.5 is an
exact half. -/
theorem C10_witness :
    (12.05 : ℚ) * 10 = ((120 : ℤ) : ℚ) + 1/2 ∧
    (jsRound ((12.05 : ℚ) * 10) : ℚ) / 10 = (((120 : ℤ) : ℚ) + 1) / 10 :=
  ⟨by norm_num, (C10_round_half_up 12.05 120 (by norm_num)).1⟩

end VLModel
